import Mathlib

/-!
Verification of the FRIDAY assistant orchestration core.

Shallow embedding of the repository's Python sources
(`friday/policy.py`, `friday/events.py`, `friday/planner.py`,
`friday/hybrid_dispatcher.py`, `friday/orchestrator.py`) into Lean.

Python strings are modelled as `List Char` (`PyStr`).  The string helper
functions below mirror the CPython semantics of `str.strip`, `str.lower`,
`str.isspace`, `in`, and `str.startswith` for the character ranges the
repository actually uses (ASCII command/goal text).
-/

namespace Friday

/-- Model of a Python string. -/
abbrev PyStr := List Char

/-- Model of Python `str.isspace` for a single character (ASCII whitespace:
space, tab, newline, carriage return, vertical tab, form feed). -/
def pyIsSpace (c : Char) : Bool :=
  c = ' ' || c = '\t' || c = '\n' || c = '\r' || c = Char.ofNat 11 || c = Char.ofNat 12

/-- Model of Python `str.lower` on one character (ASCII case folding). -/
def pyLowerChar (c : Char) : Char :=
  if 'A' ≤ c && c ≤ 'Z' then Char.ofNat (c.toNat + 32) else c

/-- Model of Python `str.lower` (ASCII case folding). -/
def pyLower (s : PyStr) : PyStr :=
  s.map pyLowerChar

/-- Drop trailing whitespace (the `rstrip` half of Python `str.strip`). -/
def pyDropTrailing (s : PyStr) : PyStr :=
  (s.reverse.dropWhile pyIsSpace).reverse

/-- Model of Python `str.strip()` with no argument: remove leading and
trailing whitespace. -/
def pyStrip (s : PyStr) : PyStr :=
  pyDropTrailing (s.dropWhile pyIsSpace)

/-- Model of Python `needle in hay` substring containment. -/
def pyContains : PyStr → PyStr → Bool
  | hay, needle =>
    needle.isPrefixOf hay ||
      match hay with
      | [] => false
      | _ :: t => pyContains t needle

/-- Model of Python `hay.startswith(needle)`. -/
def pyStartsWith (hay needle : PyStr) : Bool :=
  needle.isPrefixOf hay

/-- Decimal digits of a natural number, fuel-indexed so that the kernel can
evaluate it (models Python string interpolation of an `int`). -/
def natDigitsAux : Nat → Nat → PyStr
  | 0, _ => []
  | fuel + 1, n =>
    if n < 10 then [Char.ofNat (48 + n)]
    else natDigitsAux fuel (n / 10) ++ [Char.ofNat (48 + n % 10)]

/-- Decimal rendering of a natural number as a `PyStr`. -/
def natStr (n : Nat) : PyStr :=
  natDigitsAux (n + 1) n

/-! ## Data model (`friday/schemas.py`, `friday/config.py`) -/

/-- `RiskLevel` from `friday/schemas.py`. -/
inductive RiskLevel where
  | low
  | medium
  | high
deriving DecidableEq, Repr

/-- `StepStatus` from `friday/schemas.py`. -/
inductive StepStatus where
  | planned
  | running
  | success
  | failed
  | skipped
  | blocked
deriving DecidableEq, Repr

/-- `RunStatus` from `friday/schemas.py`.  The source constructor named
`PARTIAL` carries the wire value `"partial_success"`; it is called
`partSuccess` here. -/
inductive RunStatus where
  | running
  | completed
  | failed
  | partSuccess
deriving DecidableEq, Repr

/-- The string value each `RunStatus` serializes to (`RunStatus(str, Enum)`
values in `friday/schemas.py`). -/
def RunStatus.value : RunStatus → PyStr
  | .running => "running".toList
  | .completed => "completed".toList
  | .failed => "failed".toList
  | .partSuccess => "partial_success".toList

/-- `AssistantMode` from `friday/schemas.py`. -/
inductive AssistantMode where
  | chat
  | action
  | code
deriving DecidableEq, Repr

/-- The untyped `args` dict of a `PlanStep`, modelled at the key shapes the
core reads: `app_name`, `command`, `write_files`, `run_shell`, `action`,
`note`, `due_at`, `target`, `task`, `language`.  A missing string key reads
as the empty string and a missing boolean key as `false`, matching
`args.get(key, default)` in the sources.  The `due_at` ISO timestamp is
modelled as minutes since an arbitrary epoch. -/
structure PlanArgs where
  appName : PyStr := []
  command : PyStr := []
  writeFiles : Bool := false
  runShell : Bool := false
  action : PyStr := []
  note : PyStr := []
  dueAt : Nat := 0
  target : PyStr := []
  task : PyStr := []
  language : PyStr := []
deriving DecidableEq, Repr

/-- `PlanStep` from `friday/schemas.py`. -/
structure PlanStep where
  id : PyStr
  description : PyStr
  tool : Option PyStr := none
  args : PlanArgs := {}
  risk : RiskLevel := .low
  needsApproval : Bool := false
deriving DecidableEq, Repr

/-- `PolicyDecision` from `friday/schemas.py`. -/
structure PolicyDecision where
  allowed : Bool
  risk : RiskLevel
  needsApproval : Bool
  reason : PyStr := []
deriving DecidableEq, Repr

/-- `ToolExecutionResult` from `friday/schemas.py` (the untyped `data` map is
not read by any claim and is elided). -/
structure ToolExecutionResult where
  success : Bool
  message : PyStr := []
deriving DecidableEq, Repr

/-- `RunStepEvent` from `friday/schemas.py` (timestamps and the `data` map
are elided; they are wall-clock / untyped payload only). -/
structure RunStepEvent where
  stepId : PyStr
  status : StepStatus
  message : PyStr := []
deriving DecidableEq, Repr

/-- The subset of `Settings` (`friday/config.py`) that the policy engine and
planner read.  `allowed_apps` is a name-to-launch-command mapping, modelled
as an association list. -/
structure Settings where
  allowedTools : List PyStr
  allowedApps : List (PyStr × PyStr)
  allowedShellPrefixes : List PyStr
  blockedShellTerms : List PyStr
  maxPlanSteps : Nat
  autoExecuteLowRisk : Bool
deriving DecidableEq, Repr

/-- The dataclass defaults of `Settings` in `friday/config.py`. -/
def defaultSettings : Settings where
  allowedTools :=
    ["open_app".toList, "media_control".toList, "reminder".toList,
     "code_agent".toList, "safe_shell".toList]
  allowedApps :=
    [("notepad".toList, "notepad.exe".toList),
     ("calculator".toList, "calc.exe".toList),
     ("vscode".toList, "code".toList),
     ("chrome".toList, "chrome".toList),
     ("edge".toList, "msedge".toList)]
  allowedShellPrefixes :=
    ["echo".toList, "dir".toList, "Get-Process".toList, "Get-Date".toList,
     "python --version".toList]
  blockedShellTerms :=
    [" rm ".toList, "del ".toList, "format ".toList, "shutdown ".toList,
     "restart-computer".toList, "stop-computer".toList, "rmdir /s".toList,
     "Remove-Item -Recurse".toList, "mkfs".toList, "diskpart".toList,
     "reg delete".toList]
  maxPlanSteps := 6
  autoExecuteLowRisk := true

/-! ## Policy engine (`friday/policy.py`) -/

/-- `_BLOCKED_CONTROL_OPERATORS` from `friday/policy.py`. -/
def blockedControlOperators : List PyStr :=
  ["&&".toList, "||".toList, "|".toList, ";".toList, "<".toList,
   ">".toList, "$(".toList, "`".toList, "&".toList]

/-- `_contains_shell_control_operator` from `friday/policy.py`. -/
def containsShellControlOperator (command : PyStr) : Bool :=
  let lowered := pyLower command
  blockedControlOperators.any fun op => pyContains lowered op

/-- `_contains_line_break` from `friday/policy.py`. -/
def containsLineBreak (command : PyStr) : Bool :=
  pyContains command ['\n'] || pyContains command ['\r']

/-- The loop body of `_is_allowlisted_shell_prefix` for one allow-list
entry: skip empty normalized entries; accept an exact match, or a match
followed immediately by a whitespace character. -/
def shellEntryOk (lowered entry : PyStr) : Bool :=
  let normalized := pyLower (pyStrip entry)
  if normalized = [] then false
  else if lowered = normalized then true
  else
    pyStartsWith lowered normalized &&
      (match lowered.drop normalized.length with
       | c :: _ => pyIsSpace c
       | [] => false)

/-- `_is_allowlisted_shell_prefix` from `friday/policy.py`: the trimmed,
lowercased command must equal a trimmed, lowercased allow-list entry, or
extend it with a whitespace character immediately after it. -/
def isAllowlistedShellCmd (command : PyStr) (allowed : List PyStr) : Bool :=
  allowed.any (shellEntryOk (pyLower (pyStrip command)))

/-- `PolicyEngine.evaluate` from `friday/policy.py`, translated branch by
branch. -/
def evaluate (S : Settings) (step : PlanStep) : PolicyDecision :=
  match step.tool with
  | none =>
    ⟨true, .low, false, "Direct answer only.".toList⟩
  | some tool =>
    if tool ∉ S.allowedTools then
      ⟨false, .high, true,
        "Tool \x27".toList ++ tool ++ "\x27 is not allowlisted.".toList⟩
    else if tool = "open_app".toList then
      let appName := pyLower (pyStrip step.args.appName)
      if appName ∉ S.allowedApps.map Prod.fst then
        ⟨false, .high, true,
          "App \x27".toList ++ appName ++ "\x27 is not allowlisted.".toList⟩
      else
        ⟨true, .low, false, "Allowlisted app launch.".toList⟩
    else if tool = "media_control".toList then
      ⟨true, .low, false, "Media control is low risk.".toList⟩
    else if tool = "reminder".toList then
      ⟨true, .low, false, "Reminder operations are low risk.".toList⟩
    else if tool = "code_agent".toList then
      if step.args.runShell then
        ⟨false, .high, true, "Code agent shell execution is blocked by policy.".toList⟩
      else if step.args.writeFiles then
        ⟨true, .medium, true, "File writes require explicit approval.".toList⟩
      else
        ⟨true, .medium, true, "Code generation requires approval by default.".toList⟩
    else if tool = "safe_shell".toList then
      let command := pyStrip step.args.command
      if command = [] then
        ⟨false, .high, true, "Shell command is missing.".toList⟩
      else if containsLineBreak command then
        ⟨false, .high, true, "Shell command contains forbidden line break.".toList⟩
      else if containsShellControlOperator command then
        ⟨false, .high, true, "Shell command contains forbidden control operator.".toList⟩
      else if S.blockedShellTerms.any
          (fun term => pyContains (' ' :: pyLower command ++ [' ']) (pyLower term)) then
        ⟨false, .high, true, "Shell command contains blocked term.".toList⟩
      else if isAllowlistedShellCmd command S.allowedShellPrefixes then
        ⟨true, .medium, true, "Allowlisted shell command requires explicit approval.".toList⟩
      else
        ⟨false, .high, true, "Shell command prefix is not allowlisted.".toList⟩
    else
      ⟨false, .high, true, "No policy rule available.".toList⟩

/-! ## Event bus (`friday/events.py`)

`InMemoryEventBus.publish` snapshots the subscriber set and, for each
subscriber queue, drops the oldest element when the queue is full before
enqueueing the new event; it is total (no blocking, no exception: the
`QueueEmpty` race is swallowed and `put_nowait` always has room after the
drop).  A subscriber queue is modelled as a list with the oldest element at
the head; `asyncio.Queue(maxsize=n)` reports full iff `n > 0` and the
length has reached `n`. -/

/-- One subscriber's view of `InMemoryEventBus.publish`: drop the oldest
element if the queue is full, then enqueue the event. -/
def publishToQueue (cap : Nat) (q : List Nat) (e : Nat) : List Nat :=
  if 0 < cap ∧ cap ≤ q.length then q.tail ++ [e] else q ++ [e]

/-- Publishing a sequence of events to one subscriber queue, in order. -/
def publishSeq (cap : Nat) (q : List Nat) (es : List Nat) : List Nat :=
  es.foldl (publishToQueue cap) q

/-! ## Planner (`friday/planner.py`) -/

/-- `Planner._extract_app_name`: first the known-app scan, then the
`\bopen\s+([a-z0-9._ -]+)` regex.  `appWordChar` is the word-character
class `[a-z0-9_]` over the lowercased text (for the `\b` boundary) and
`appNameChar` is the captured class `[a-z0-9._ -]`. -/
def appWordChar (c : Char) : Bool :=
  ('a' ≤ c && c ≤ 'z') || ('0' ≤ c && c ≤ '9') || c = '_'

/-- The character class `[a-z0-9._ -]` captured by the app-name regex. -/
def appNameChar (c : Char) : Bool :=
  ('a' ≤ c && c ≤ 'z') || ('0' ≤ c && c ≤ '9') ||
    c = '.' || c = '_' || c = ' ' || c = '-'

/-- Python `str.split()` with no argument: split on whitespace runs,
discarding empty fields. -/
def pySplitWs (s : PyStr) : List PyStr :=
  (s.splitOnP (fun c => pyIsSpace c)).filter (· ≠ [])

/-- Try to match `open\s+([a-z0-9._ -]+)` at the head of `s`, returning the
captured group.  `\s+` is greedy but gives one whitespace character back to
the capture class (which contains the space) when nothing else follows,
matching backtracking regex semantics. -/
def matchOpenAt (s : PyStr) : Option PyStr :=
  if pyStartsWith s "open".toList then
    let rest := s.drop 4
    let ws := rest.takeWhile pyIsSpace
    if ws = [] then none
    else
      let tail := rest.drop ws.length
      let captured := tail.takeWhile appNameChar
      if captured ≠ [] then some captured
      else if (ws.drop 1).contains ' ' then some [' ']
      else none
  else none

/-- Leftmost search for the app-name regex: scan positions left to right,
honouring the `\b` boundary (previous character not a word character). -/
def searchOpenRegex : (prev : Option Char) → PyStr → Option PyStr
  | _, [] => none
  | prev, c :: t =>
    let boundaryOk := match prev with
      | none => true
      | some p => !appWordChar p
    match (if boundaryOk then matchOpenAt (c :: t) else none) with
    | some captured => some captured
    | none => searchOpenRegex (some c) t

/-- `Planner._extract_app_name` from `friday/planner.py`.  The known-app
loop runs first; then the regex capture is stripped and split, and its
first whitespace-delimited token is the candidate.  When the captured
group is whitespace-only (the capture class contains the space, so
backtracking can hand it one) the source indexes `[0]` of an empty
`split()` and raises `IndexError`; `Except.error ()` models that raise,
which `create_plan` propagates to its caller. -/
def extractAppName (S : Settings) (loweredText : PyStr) :
    Except Unit (Option PyStr) :=
  match S.allowedApps.map Prod.fst |>.find?
      (fun app => pyContains loweredText ("open ".toList ++ app) || loweredText = app) with
  | some app => .ok (some app)
  | none =>
    match searchOpenRegex none loweredText with
    | some captured =>
      match pySplitWs (pyStrip captured) with
      | candidate :: _ => .ok (if candidate ≠ [] then some candidate else none)
      | [] => .error ()
    | none => .ok none

/-- Scan for the first match of `in\s+(\d+)\s+(minute|minutes|hour|hours)`
and report whether the unit is hours together with the captured amount. -/
def matchReminderTimeAt (s : PyStr) : Option (Nat × Bool)
:=
  if pyStartsWith s "in".toList then
    let rest := s.drop 2
    let ws1 := rest.takeWhile pyIsSpace
    if ws1 = [] then none
    else
      let afterWs1 := rest.drop ws1.length
      let digits := afterWs1.takeWhile (fun c => '0' ≤ c && c ≤ '9')
      if digits = [] then none
      else
        let afterDigits := afterWs1.drop digits.length
        let ws2 := afterDigits.takeWhile pyIsSpace
        if ws2 = [] then none
        else
          let unitText := afterDigits.drop ws2.length
          if pyStartsWith unitText "minute".toList then
            some (digits.foldl (fun acc c => acc * 10 + (c.toNat - 48)) 0, false)
          else if pyStartsWith unitText "hour".toList then
            some (digits.foldl (fun acc c => acc * 10 + (c.toNat - 48)) 0, true)
          else none
  else none

/-- Leftmost search for the reminder-time regex (no `\b` anchor in the
source pattern). -/
def searchReminderTime : PyStr → Option (Nat × Bool)
  | [] => none
  | c :: t =>
    match matchReminderTimeAt (c :: t) with
    | some r => some r
    | none => searchReminderTime t

/-- `Planner._extract_reminder_payload` from `friday/planner.py`.  `now` is
the current time in minutes (`datetime.utcnow()` is an external clock);
the returned due time is likewise in minutes. -/
def extractReminderPayload (now : Nat) (text : PyStr) : PyStr × Nat :=
  let lowered := pyLower text
  let due := match searchReminderTime lowered with
    | some (amount, isHours) => if isHours then now + 60 * amount else now + amount
    | none => now + 30
  let stripTokens : List PyStr :=
    ["remind me to".toList, "set reminder to".toList, "reminder to".toList]
  let note := match stripTokens.find? (fun tok => pyContains lowered tok) with
    | some tok =>
      let idx := (List.range (lowered.length + 1)).find?
        (fun i => pyStartsWith (lowered.drop i) tok) |>.getD 0
      pyStrip (text.drop (idx + tok.length))
    | none => text
  let note := if note = [] then "Reminder".toList else note
  (note, due)

/-- `Planner._extract_media_target` from `friday/planner.py`. -/
def extractMediaTarget (text : PyStr) : PyStr :=
  let lowered := pyLower text
  if pyStartsWith lowered "play ".toList then
    let t := pyStrip (text.drop 5)
    if t = [] then "music".toList else t
  else "music".toList

/-- `Planner._infer_language` from `friday/planner.py`. -/
def inferLanguage (loweredText : PyStr) : PyStr :=
  if pyContains loweredText "python".toList then "python".toList
  else if pyContains loweredText "javascript".toList
      || pyContains loweredText "node".toList then "javascript".toList
  else if pyContains loweredText "java".toList then "java".toList
  else "text".toList

/-- `Planner._extract_shell_command` from `friday/planner.py`. -/
def extractShellCommand (text : PyStr) : Option PyStr :=
  let lowered := pyStrip (pyLower text)
  if pyStartsWith lowered "run command ".toList then
    some (pyStrip (text.drop "run command ".toList.length))
  else if pyStartsWith lowered "execute command ".toList then
    some (pyStrip (text.drop "execute command ".toList.length))
  else none

/-- The id string `f"step_{n}"` used by the planner. -/
def stepId (n : Nat) : PyStr :=
  "step_".toList ++ natStr n

/-- `Planner._extract_steps` from `friday/planner.py`: ordered heuristic
matching, each trigger appending one step; `Code` mode short-circuits to a
single `code_agent` step. -/
def extractSteps (S : Settings) (now : Nat) (goal : PyStr) (mode : AssistantMode) :
    Except Unit (List PlanStep) :=
  let text := pyStrip goal
  let lowered := pyLower text
  if mode = .code then
    .ok [{ id := stepId 1,
           description := "Generate or explain code for the request".toList,
           tool := some "code_agent".toList,
           args := { task := text, language := inferLanguage lowered } }]
  else
    match extractAppName S lowered with
    | .error e => .error e
    | .ok appOpt =>
    let steps : List PlanStep := []
    let steps := match appOpt with
      | some app =>
        steps ++ [{ id := stepId (steps.length + 1),
                    description := "Open ".toList ++ app,
                    tool := some "open_app".toList,
                    args := { appName := app } }]
      | none => steps
    let steps :=
      if pyContains lowered "remind".toList || pyContains lowered "reminder".toList then
        let payload := extractReminderPayload now text
        steps ++ [{ id := stepId (steps.length + 1),
                    description := "Create a reminder".toList,
                    tool := some "reminder".toList,
                    args := { action := "set".toList, note := payload.1,
                              dueAt := payload.2 } }]
      else steps
    let steps :=
      if pyContains lowered "list reminders".toList
          || pyContains lowered "show reminders".toList then
        steps ++ [{ id := stepId (steps.length + 1),
                    description := "List active reminders".toList,
                    tool := some "reminder".toList,
                    args := { action := "list".toList } }]
      else steps
    let steps :=
      if pyContains lowered "play music".toList
          || pyStartsWith lowered "play ".toList then
        steps ++ [{ id := stepId (steps.length + 1),
                    description := "Play requested media".toList,
                    tool := some "media_control".toList,
                    args := { action := "play".toList,
                              target := extractMediaTarget text } }]
      else steps
    let steps :=
      if pyContains lowered "write code".toList
          || pyContains lowered "generate code".toList
          || pyContains lowered "create script".toList then
        steps ++ [{ id := stepId (steps.length + 1),
                    description := "Generate code output".toList,
                    tool := some "code_agent".toList,
                    args := { task := text, language := inferLanguage lowered } }]
      else steps
    let steps := match extractShellCommand text with
      | some command =>
        steps ++ [{ id := stepId (steps.length + 1),
                    description := "Run a safe shell command".toList,
                    tool := some "safe_shell".toList,
                    args := { command := command } }]
      | none => steps
    if steps = [] then
      .ok [{ id := stepId 1,
             description := "Respond directly with local model".toList,
             tool := none, args := {} }]
    else .ok steps

/-- The per-step policy scoring loop in `Planner.create_plan`: copy the
decision's risk and approval flag onto the step and annotate the
description of blocked steps. -/
def scoreStep (S : Settings) (step : PlanStep) : PlanStep :=
  let decision := evaluate S step
  let step := { step with risk := decision.risk, needsApproval := decision.needsApproval }
  if !decision.allowed then
    { step with description :=
        step.description ++ " [BLOCKED: ".toList ++ decision.reason ++ "]".toList }
  else step

/-- The steps stored into the `Plan` by `Planner.create_plan`: extract,
policy-score each step, then truncate to `max_plan_steps`.  An exception
raised during extraction propagates out of `create_plan` unhandled. -/
def planSteps (S : Settings) (now : Nat) (goal : PyStr) (mode : AssistantMode) :
    Except Unit (List PlanStep) :=
  match extractSteps S now goal mode with
  | .error e => .error e
  | .ok steps => .ok ((steps.map (scoreStep S)).take S.maxPlanSteps)

/-! ## Hybrid dispatcher (`friday/hybrid_dispatcher.py`)

The local model, the cloud reasoner and the standard-library JSON decoder
are external collaborators; they enter the model as oracle functions.
`cloudGen i` is the outcome of the `i`-th (0-based) call to
`CloudReasoner.generate`: `Except.error msg` models a raised exception
(whose message interpolates into the warning string), `Except.ok text` a
returned string.  Exceptions therefore never escape `dispatch`: the model
is a total function, mirroring the `try/except` in
`_generate_with_cloud_retry`.  Confidence values (Python floats) are
modelled in hundredths. -/

/-- `SpeechIntent` from `friday/hybrid_dispatcher.py`. -/
inductive SpeechIntent where
  | chat
  | automation
  | code
  | unknown
deriving DecidableEq, Repr

/-- `IntentPrediction` from `friday/hybrid_dispatcher.py` (confidence in
hundredths). -/
structure IntentPrediction where
  intent : SpeechIntent
  mode : AssistantMode
  confidence : Nat
  requiresDeepReasoning : Bool
deriving DecidableEq, Repr

/-- `StructuredAction` from `friday/hybrid_dispatcher.py` (args modelled as
string pairs, confidence in hundredths). -/
structure StructuredAction where
  tool : PyStr
  args : List (PyStr × PyStr) := []
  confidence : Nat := 0
  reason : PyStr := []
deriving DecidableEq, Repr

/-- `DispatchResult` from `friday/hybrid_dispatcher.py`. -/
structure DispatchResult where
  transcript : PyStr
  intent : SpeechIntent
  mode : AssistantMode
  reply : PyStr
  actions : List StructuredAction
  llmBackend : PyStr
  usedCloudFallback : Bool
  localAttempts : Nat
  cloudAttempts : Nat
  warnings : List PyStr := []
deriving DecidableEq, Repr

/-- `_ParsedPayload` from `friday/hybrid_dispatcher.py`. -/
structure ParsedPayload where
  reply : PyStr
  actions : List StructuredAction
  isStructured : Bool
deriving DecidableEq, Repr

/-- The shape of a decoded top-level JSON object as `_parse_payload` reads
it: the `reply` and `response` fields coerced to strings (missing keys read
as `""`), and the `actions` field when it is a list (`none` models a
missing or non-list `actions` value).  Elements that are not objects or
have an empty `tool` are dropped by `_parse_actions`; the model keeps the
already-extracted field view of each element. -/
structure JsonPayload where
  reply : PyStr := []
  response : PyStr := []
  actions : Option (List StructuredAction) := none
deriving DecidableEq, Repr

/-- `RuleBasedSpeechIntentClassifier.classify` from
`friday/hybrid_dispatcher.py`. -/
def classify (transcript : PyStr) : IntentPrediction :=
  let text := pyLower (pyStrip transcript)
  if text = [] then
    ⟨.unknown, .chat, 0, false⟩
  else
    let deep :=
      ["analyze".toList, "reason".toList, "compare".toList, "tradeoff".toList,
       "architecture".toList, "deep".toList, "why".toList].any
        (fun tok => pyContains text tok)
    if ["code".toList, "python".toList, "typescript".toList, "bug".toList,
        "refactor".toList].any (fun tok => pyContains text tok) then
      ⟨.code, .code, 86, true⟩
    else if ["open ".toList, "launch ".toList, "play ".toList, "run ".toList,
        "execute ".toList, "remind me".toList, "set reminder".toList].any
        (fun tok => pyContains text tok) then
      ⟨.automation, .action, 84, deep⟩
    else
      ⟨.chat, .chat, 77, deep⟩

/-- `HybridAIDispatcher._infer_actions_from_transcript` from
`friday/hybrid_dispatcher.py`. -/
def inferActionsFromTranscript (transcript : PyStr) (prediction : IntentPrediction) :
    List StructuredAction :=
  let text := pyLower (pyStrip transcript)
  if prediction.intent ≠ .automation then []
  else if pyStartsWith text "open ".toList || pyStartsWith text "launch ".toList then
    let app := if transcript.contains ' ' then
        pyStrip ((transcript.dropWhile (· ≠ ' ')).drop 1)
      else []
    [{ tool := "open_app".toList, args := [("app_name".toList, app)],
       confidence := 62, reason := "inferred from open/launch command".toList }]
  else if pyStartsWith text "play ".toList then
    let query := if transcript.contains ' ' then
        pyStrip ((transcript.dropWhile (· ≠ ' ')).drop 1)
      else []
    [{ tool := "media_control".toList,
       args := [("action".toList, "play".toList), ("query".toList, query)],
       confidence := 61, reason := "inferred from play command".toList }]
  else if pyContains text "remind me".toList || pyContains text "set reminder".toList then
    [{ tool := "reminder".toList, args := [("text".toList, transcript)],
       confidence := 65, reason := "inferred from reminder phrase".toList }]
  else if pyStartsWith text "run ".toList || pyStartsWith text "execute ".toList then
    let command := if transcript.contains ' ' then
        pyStrip ((transcript.dropWhile (· ≠ ' ')).drop 1)
      else []
    [{ tool := "safe_shell".toList, args := [("command".toList, command)],
       confidence := 55, reason := "inferred from run/execute command".toList }]
  else []

/-- `HybridAIDispatcher._parse_actions` from `friday/hybrid_dispatcher.py`:
keep the elements with a non-empty trimmed tool name; fall back to
transcript inference when the `actions` value is not a list or nothing
parseable remains. -/
def parseActions (actionsObj : Option (List StructuredAction)) (transcript : PyStr)
    (prediction : IntentPrediction) : List StructuredAction :=
  match actionsObj with
  | none => inferActionsFromTranscript transcript prediction
  | some items =>
    let parsed := (items.filter (fun a => pyStrip a.tool ≠ [])).map
      (fun a => { a with tool := pyStrip a.tool })
    if parsed ≠ [] then parsed else inferActionsFromTranscript transcript prediction

/-- The model of one dispatcher instance: configuration plus its external
collaborators (local model, cloud reasoner, JSON decoder). -/
structure Dispatcher where
  cloudEnabled : Bool
  cloudMaxRetries : Nat
  localGen : PyStr → PyStr
  cloudGen : Nat → Except PyStr PyStr
  tryParseJson : PyStr → Option JsonPayload

/-- `HybridAIDispatcher._parse_payload` from `friday/hybrid_dispatcher.py`.
`D.tryParseJson` models `_try_parse_json` (strict `json.loads`, then the
fenced/inline extraction fallbacks, all standard-library JSON). -/
def parsePayload (D : Dispatcher) (payloadText transcript : PyStr)
    (prediction : IntentPrediction) : ParsedPayload :=
  let cleaned := pyStrip payloadText
  if cleaned = [] then ⟨[], [], false⟩
  else
    match D.tryParseJson cleaned with
    | none => ⟨cleaned, inferActionsFromTranscript transcript prediction, false⟩
    | some parsed =>
      let reply := pyStrip parsed.reply
      let reply := if reply = [] then pyStrip parsed.response else reply
      let actions := parseActions parsed.actions transcript prediction
      ⟨if reply = [] then cleaned else reply, actions, true⟩

/-- The warning recorded for a cloud attempt that raised. -/
def cloudFailMsg (attempt : Nat) (exc : PyStr) : PyStr :=
  "cloud attempt ".toList ++ natStr attempt ++ " failed: ".toList ++ exc

/-- The warning recorded for a cloud attempt that returned an empty string. -/
def cloudEmptyMsg (attempt : Nat) : PyStr :=
  "cloud attempt ".toList ++ natStr attempt ++ " returned empty response".toList

/-- The retry loop of `HybridAIDispatcher._generate_with_cloud_retry`:
`remaining` attempts left, `attempts` made so far.  Backoff sleeps are pure
delay and not modelled. -/
def cloudRetryGo (D : Dispatcher) : Nat → Nat → List PyStr → PyStr × Nat × List PyStr
  | 0, attempts, warnings => ([], attempts, warnings)
  | remaining + 1, attempts, warnings =>
    let attempts := attempts + 1
    match D.cloudGen (attempts - 1) with
    | .ok text =>
      if pyStrip text ≠ [] then (text, attempts, warnings)
      else cloudRetryGo D remaining attempts (warnings ++ [cloudEmptyMsg attempts])
    | .error exc =>
      cloudRetryGo D remaining attempts (warnings ++ [cloudFailMsg attempts exc])

/-- `HybridAIDispatcher._generate_with_cloud_retry`: up to
`cloud_max_retries + 1` attempts; empty and erroring responses are recorded
as warnings, never raised. -/
def generateWithCloudRetry (D : Dispatcher) : PyStr × Nat × List PyStr :=
  cloudRetryGo D (D.cloudMaxRetries + 1) 0 []

/-- The tail of `HybridAIDispatcher.dispatch` after the optional cloud
escalation: prefer the non-empty local reply (with an unavailability
warning when cloud was tried and produced nothing parseable), else the
deterministic fallback. -/
def dispatchTail (cleaned : PyStr) (prediction : IntentPrediction)
    (localParsed : ParsedPayload) (shouldTryCloud : Bool)
    (cloudParsed : Option ParsedPayload) (cloudAttempts : Nat)
    (warnings : List PyStr) : DispatchResult :=
  if localParsed.reply ≠ [] then
    let warnings :=
      if shouldTryCloud ∧ cloudParsed = none then
        warnings ++ ["cloud fallback unavailable; returned local response".toList]
      else warnings
    { transcript := cleaned, intent := prediction.intent, mode := prediction.mode,
      reply := localParsed.reply, actions := localParsed.actions,
      llmBackend := "local".toList, usedCloudFallback := false,
      localAttempts := 1, cloudAttempts := cloudAttempts, warnings := warnings }
  else
    { transcript := cleaned, intent := prediction.intent, mode := prediction.mode,
      reply := ("I understood your request but could not get a model response. "
        ++ "I prepared structured actions for execution.").toList,
      actions := inferActionsFromTranscript cleaned prediction,
      llmBackend := "deterministic-fallback".toList,
      usedCloudFallback := shouldTryCloud,
      localAttempts := 1, cloudAttempts := cloudAttempts,
      warnings := warnings ++ ["used deterministic fallback response".toList] }

/-- `HybridAIDispatcher.dispatch` from `friday/hybrid_dispatcher.py`.  The
prompt string built by `_build_dispatch_prompt` is opaque to every claim;
the model feeds the cleaned transcript to the local model oracle in its
place (the oracle is universally quantified in every theorem). -/
def dispatch (D : Dispatcher) (transcript : PyStr) : DispatchResult :=
  let cleaned := pyStrip transcript
  if cleaned = [] then
    { transcript := [], intent := .unknown, mode := .chat,
      reply := "No transcript provided.".toList, actions := [],
      llmBackend := "none".toList, usedCloudFallback := false,
      localAttempts := 0, cloudAttempts := 0,
      warnings := ["empty transcript".toList] }
  else
    let prediction := classify cleaned
    let localRaw := D.localGen cleaned
    let localParsed := parsePayload D localRaw cleaned prediction
    let shouldTryCloud :=
      D.cloudEnabled && (prediction.requiresDeepReasoning || !localParsed.isStructured)
    if shouldTryCloud then
      let result := generateWithCloudRetry D
      let cloudRaw := result.1
      let cloudAttempts := result.2.1
      let warnings := result.2.2
      if cloudRaw ≠ [] then
        let cloudParsed := parsePayload D cloudRaw cleaned prediction
        if cloudParsed.reply ≠ [] then
          { transcript := cleaned, intent := prediction.intent,
            mode := prediction.mode, reply := cloudParsed.reply,
            actions := cloudParsed.actions, llmBackend := "cloud".toList,
            usedCloudFallback := true, localAttempts := 1,
            cloudAttempts := cloudAttempts, warnings := warnings }
        else
          dispatchTail cleaned prediction localParsed true (some cloudParsed)
            cloudAttempts warnings
      else
        dispatchTail cleaned prediction localParsed true none cloudAttempts warnings
    else
      dispatchTail cleaned prediction localParsed false none 0 []

/-! ## Orchestrator: plan execution (`friday/orchestrator.py`)

`Orchestrator.execute_plan` walks the plan's steps in order, re-evaluating
policy per step: a disallowed step appends a `Blocked` timeline entry and
counts as a failure; an allowed step whose stored `needs_approval` flag is
set and whose id is absent from the caller's `approved_steps` appends a
`Skipped` entry and counts as neither; otherwise a `Running` entry is
appended and the step executes — a tool-less step generates a direct answer
(always a success), a tool step succeeds or fails with its
`ToolExecutionResult`.  The final status is computed from the two tallies.
Event-bus publications, timestamps and storage writes accompany the
timeline appends and are elided (the timeline is the durable record). -/

/-- The final-status computation at the end of `execute_plan`. -/
def statusOf (successes failures : Nat) : RunStatus :=
  if failures = 0 ∧ 0 < successes then .completed
  else if 0 < failures ∧ 0 < successes then .partSuccess
  else .failed

/-- One iteration of the `execute_plan` step loop: the timeline entries it
appends and the success/failure tally increments.  `execTool` is the
`ToolRegistry.execute` collaborator (which never raises; failures come back
as results). -/
def stepRun (S : Settings) (approved : List PyStr)
    (execTool : PyStr → PlanArgs → ToolExecutionResult) (step : PlanStep) :
    List RunStepEvent × Nat × Nat :=
  let decision := evaluate S step
  if !decision.allowed then
    ([⟨step.id, .blocked, decision.reason⟩], 0, 1)
  else if step.needsApproval ∧ step.id ∉ approved then
    ([⟨step.id, .skipped, "Skipped because approval is missing.".toList⟩], 0, 0)
  else
    match step.tool with
    | none =>
      ([⟨step.id, .running, step.description⟩,
        ⟨step.id, .success, "Direct response generated.".toList⟩], 1, 0)
    | some tool =>
      let result := execTool tool step.args
      if result.success then
        ([⟨step.id, .running, step.description⟩,
          ⟨step.id, .success, result.message⟩], 1, 0)
      else
        ([⟨step.id, .running, step.description⟩,
          ⟨step.id, .failed, result.message⟩], 0, 1)

/-- The whole step loop: concatenated timeline and final tallies. -/
def runSteps (S : Settings) (approved : List PyStr)
    (execTool : PyStr → PlanArgs → ToolExecutionResult) :
    List PlanStep → List RunStepEvent × Nat × Nat
  | [] => ([], 0, 0)
  | step :: rest =>
    let this := stepRun S approved execTool step
    let others := runSteps S approved execTool rest
    (this.1 ++ others.1, this.2.1 + others.2.1, this.2.2 + others.2.2)

/-- `Orchestrator.execute_plan`, reduced to its observable outcome: the run
timeline and the final `RunStatus`. -/
def executePlan (S : Settings) (approved : List PyStr)
    (execTool : PyStr → PlanArgs → ToolExecutionResult) (steps : List PlanStep) :
    List RunStepEvent × RunStatus :=
  let outcome := runSteps S approved execTool steps
  (outcome.1, statusOf outcome.2.1 outcome.2.2)

/-- Number of timeline entries with a given status. -/
def countStatus (status : StepStatus) (timeline : List RunStepEvent) : Nat :=
  (timeline.filter (fun e => e.status = status)).length

/-! ## Orchestrator: voice session (`friday/orchestrator.py`)

`process_voice_text` registers (or touches) the session, unconditionally
clears `interrupted` and `last_partial`, generates the reply through
`chat`, and only then consults the `interrupted` flag: when set it clears
the flag and returns the reply tagged `interrupted=true` with
`tts_backend="none"` and no synthesis call; otherwise it synthesizes the
reply.  Generation is not preemptible, so an interrupt can take effect only
at that single check point; the model exposes the interleaving as a flag
`interruptArrives` meaning `interrupt_voice_session` ran between the reset
and the check (`interrupt_voice_session` itself just sets the session's
`interrupted` flag and publishes an event).  The third component of the
result records whether `synthesize_text` was invoked. -/

/-- `VoiceSessionState` from `friday/orchestrator.py` (timestamps elided). -/
structure VoiceSessionState where
  mode : AssistantMode
  interrupted : Bool := false
  lastPartialText : PyStr := []
deriving DecidableEq, Repr

/-- The outcome of `VoicePipeline.synthesize`, an external collaborator. -/
structure TtsOutcome where
  audioPath : PyStr
  backend : PyStr
deriving DecidableEq, Repr

/-- The fields of `VoiceCommandResponse` that `process_voice_text` fills
(plan/run and stt fields elided; they are orthogonal pass-through data). -/
structure VoiceCommandResponse where
  transcript : PyStr
  reply : PyStr
  audioPath : PyStr := []
  ttsBackend : PyStr := []
  interrupted : Bool := false
  warnings : List PyStr := []
deriving DecidableEq, Repr

/-- `Orchestrator.process_voice_text`: `chatReply` is the reply produced by
the `chat` collaborator, `synth` the text-to-speech collaborator, `session`
the session's state when the call starts, and `interruptArrives` whether
`interrupt_voice_session` sets the flag between reply generation and the
interrupt check.  Returns the response, the session state on return, and
whether speech synthesis was invoked. -/
def processVoiceText (synth : PyStr → TtsOutcome) (chatReply : PyStr)
    (session : VoiceSessionState) (interruptArrives : Bool) (transcript : PyStr)
    (mode : AssistantMode) :
    VoiceCommandResponse × VoiceSessionState × Bool :=
  let text := pyStrip transcript
  if text = [] then
    ({ transcript := [], reply := "No transcript text provided.".toList,
       warnings := ["empty transcript".toList] }, session, false)
  else
    let session :=
      { session with mode := mode, interrupted := false, lastPartialText := [] }
    let session :=
      if interruptArrives then { session with interrupted := true } else session
    if session.interrupted then
      ({ transcript := text, reply := chatReply, audioPath := [],
         ttsBackend := "none".toList, interrupted := true,
         warnings := ["interrupted before speech output".toList] },
       { session with interrupted := false }, false)
    else
      let tts := synth chatReply
      ({ transcript := text, reply := chatReply, audioPath := tts.audioPath,
         ttsBackend := tts.backend, interrupted := false, warnings := [] },
       session, true)

/-! ## Helper lemmas about the string model -/

/-- `pyContains hay needle` decides substring containment. -/
theorem pyContains_iff {hay needle : PyStr} :
    pyContains hay needle = true ↔ needle <:+: hay := by
  induction hay with
  | nil =>
    rw [pyContains]
    simp [List.isPrefixOf_iff_prefix, List.infix_nil, List.prefix_nil]
  | cons a t ih =>
    rw [pyContains]
    simp only [Bool.or_eq_true, List.isPrefixOf_iff_prefix, List.infix_cons_iff, ih]

/-- A single-character substring check is membership. -/
theorem pyContains_singleton_iff {hay : PyStr} {c : Char} :
    pyContains hay [c] = true ↔ c ∈ hay := by
  rw [pyContains_iff]
  constructor
  · rintro ⟨s, t, rfl⟩
    simp
  · intro h
    obtain ⟨s, t, rfl⟩ := List.append_of_mem h
    exact ⟨s, t, by simp⟩

/-- `pyDropTrailing` is Mathlib's `List.rdropWhile`. -/
theorem pyDropTrailing_eq_rdropWhile (s : PyStr) :
    pyDropTrailing s = List.rdropWhile pyIsSpace s := rfl

/-- Stripping is idempotent. -/
theorem pyStrip_idem (s : PyStr) : pyStrip (pyStrip s) = pyStrip s := by
  unfold pyStrip
  rw [pyDropTrailing_eq_rdropWhile, pyDropTrailing_eq_rdropWhile]
  set t := s.dropWhile pyIsSpace with ht
  have hself : List.dropWhile pyIsSpace t = t := List.dropWhile_idempotent ..
  have hpre : List.rdropWhile pyIsSpace t <+: t := List.rdropWhile_prefix ..
  have hdrop : List.dropWhile pyIsSpace (List.rdropWhile pyIsSpace t) =
      List.rdropWhile pyIsSpace t := by
    obtain ⟨rest, hrest⟩ := hpre
    cases hr : List.rdropWhile pyIsSpace t with
    | nil => simp
    | cons a u =>
      rw [hr] at hrest
      have hta : t = a :: (u ++ rest) := by rw [← hrest]; simp
      have hna : pyIsSpace a = false := by
        have hthis := hself
        rw [hta, List.dropWhile_cons] at hthis
        by_contra hcontra
        rw [Bool.not_eq_false] at hcontra
        rw [if_pos hcontra] at hthis
        have hlen := congrArg List.length hthis
        have hle := (List.dropWhile_suffix (l := u ++ rest) pyIsSpace).length_le
        simp only [List.length_cons] at hlen
        omega
      rw [List.dropWhile_cons, hna]
      simp
  rw [hdrop, List.rdropWhile_idempotent]

/-- An infix made of non-whitespace characters survives dropping leading
whitespace. -/
theorem IsInfix.dropWhile_space {op l : PyStr} (hop : op ≠ [])
    (hns : ∀ c ∈ op, pyIsSpace c = false) (h : op <:+: l) :
    op <:+: l.dropWhile pyIsSpace := by
  induction l with
  | nil => simpa using h
  | cons a t ih =>
    rw [List.dropWhile_cons]
    by_cases ha : pyIsSpace a = true
    · rw [if_pos ha]
      rcases List.infix_cons_iff.mp h with hpre | hinf
      · rcases List.prefix_cons_iff.mp hpre with rfl | ⟨u, rfl, _⟩
        · exact absurd rfl hop
        · have := hns a (by simp)
          rw [this] at ha
          exact absurd ha (by simp)
      · exact ih hinf
    · rw [if_neg ha]
      exact h

/-- An infix made of non-whitespace characters survives `str.strip()`. -/
theorem IsInfix.pyStrip_of_no_space {op l : PyStr} (hop : op ≠ [])
    (hns : ∀ c ∈ op, pyIsSpace c = false) (h : op <:+: l) :
    op <:+: pyStrip l := by
  have h1 : op <:+: l.dropWhile pyIsSpace := IsInfix.dropWhile_space hop hns h
  unfold pyStrip pyDropTrailing
  rw [← List.reverse_infix]
  simp only [List.reverse_reverse]
  refine IsInfix.dropWhile_space ?_ ?_ ?_
  · simpa using hop
  · intro c hc
    exact hns c (by simpa using hc)
  · rw [List.reverse_infix]
    exact h1

/-! ## Claim C3: event bus drop-oldest -/

/-- General shape of repeated publication: a queue no longer than the
capacity receives the tail of its history. -/
theorem publishSeq_eq_drop (cap : Nat) (hcap : 0 < cap) (es : List Nat) :
    ∀ q : List Nat, q.length ≤ cap →
      publishSeq cap q es = (q ++ es).drop (q.length + es.length - cap) := by
  induction es with
  | nil =>
    intro q hq
    simp [publishSeq, Nat.sub_eq_zero_of_le hq]
  | cons e t ih =>
    intro q hq
    have hstep : publishSeq cap q (e :: t) = publishSeq cap (publishToQueue cap q e) t := by
      simp [publishSeq]
    rw [hstep]
    by_cases hfull : cap ≤ q.length
    · have hlen : q.length = cap := le_antisymm hq hfull
      cases q with
      | nil => simp at hlen; omega
      | cons a q' =>
        have hfull' : cap ≤ q'.length + 1 := by simpa using hfull
        have hpub : publishToQueue cap (a :: q') e = q' ++ [e] := by
          simp [publishToQueue, hfull', hcap]
        rw [hpub]
        have hq' : (q' ++ [e]).length ≤ cap := by
          simp at hlen ⊢
          omega
        rw [ih (q' ++ [e]) hq']
        have hlq : (q' : List Nat).length + 1 = cap := by simpa using hlen
        have hidx1 : (q' ++ [e]).length + t.length - cap = t.length := by
          simp
          omega
        have hidx2 : (a :: q').length + (e :: t).length - cap = t.length + 1 := by
          simp
          omega
        rw [hidx1, hidx2]
        have : (a :: q') ++ e :: t = a :: (q' ++ e :: t) := by simp
        rw [this, List.drop_succ_cons]
        congr 1
        simp
    · push_neg at hfull
      have hpub : publishToQueue cap q e = q ++ [e] := by
        have : ¬(0 < cap ∧ cap ≤ q.length) := by omega
        simp [publishToQueue, this]
      rw [hpub]
      have hq' : (q ++ [e]).length ≤ cap := by simp; omega
      rw [ih (q ++ [e]) hq']
      have hidx : (q ++ [e]).length + t.length - cap = q.length + (e :: t).length - cap := by
        simp
        omega
      rw [hidx]
      congr 1
      simp

/-- Claim C3: `InMemoryEventBus.publish` is total on a full subscriber
queue (the model is a function: it neither blocks nor raises), and after
publishing `N+1` events to a queue of capacity `N`, the queue holds exactly
the `N` most recent events in publication order — the oldest was dropped. -/
theorem eventBus_full_queue_keeps_recent (cap : Nat) (es : List Nat)
    (hcap : 0 < cap) (hlen : es.length = cap + 1) :
    publishSeq cap [] es = es.drop 1 ∧ (publishSeq cap [] es).length = cap := by
  have h := publishSeq_eq_drop cap hcap es [] (by simp)
  simp only [List.nil_append, List.length_nil, Nat.zero_add] at h
  have hidx : es.length - cap = 1 := by omega
  rw [hidx] at h
  refine ⟨h, ?_⟩
  rw [h, List.length_drop, hlen]
  omega

/-- Witness for C3 at capacity 2 and three events. -/
theorem eventBus_full_queue_keeps_recent_witness :
    publishSeq 2 [] [10, 20, 30] = [20, 30] ∧ (publishSeq 2 [] [10, 20, 30]).length = 2 :=
  eventBus_full_queue_keeps_recent 2 [10, 20, 30] (by decide) (by decide)

/-! ## Claims C6 and C9: voice-session interrupt semantics -/

/-- Claim C6: when `interrupt_voice_session` sets the flag after the reply
was generated and before the interrupt check, `process_voice_text` returns
`interrupted=true` with `tts_backend="none"`, never invokes speech
synthesis, and clears the session's `interrupted` flag before returning. -/
theorem voice_interrupt_suppresses_tts (synth : PyStr → TtsOutcome)
    (chatReply : PyStr) (session : VoiceSessionState) (transcript : PyStr)
    (mode : AssistantMode) (h : pyStrip transcript ≠ []) :
    (processVoiceText synth chatReply session true transcript mode).1.interrupted = true ∧
    (processVoiceText synth chatReply session true transcript mode).1.ttsBackend =
      "none".toList ∧
    (processVoiceText synth chatReply session true transcript mode).2.2 = false ∧
    (processVoiceText synth chatReply session true transcript mode).2.1.interrupted =
      false := by
  simp [processVoiceText, h]

/-- Witness for C6 on a concrete session and transcript. -/
theorem voice_interrupt_suppresses_tts_witness :
    (processVoiceText (fun _ => ⟨"out.wav".toList, "piper".toList⟩) "hi".toList
      ⟨.action, false, []⟩ true "hello".toList .action).1.interrupted = true ∧
    (processVoiceText (fun _ => ⟨"out.wav".toList, "piper".toList⟩) "hi".toList
      ⟨.action, false, []⟩ true "hello".toList .action).1.ttsBackend = "none".toList ∧
    (processVoiceText (fun _ => ⟨"out.wav".toList, "piper".toList⟩) "hi".toList
      ⟨.action, false, []⟩ true "hello".toList .action).2.2 = false ∧
    (processVoiceText (fun _ => ⟨"out.wav".toList, "piper".toList⟩) "hi".toList
      ⟨.action, false, []⟩ true "hello".toList .action).2.1.interrupted = false :=
  voice_interrupt_suppresses_tts (fun _ => ⟨"out.wav".toList, "piper".toList⟩)
    "hi".toList ⟨.action, false, []⟩ "hello".toList .action (by decide)

/-- Claim C9: `process_voice_text` unconditionally resets the session's
`interrupted` flag (and clears `last_partial`) before generating the
reply, so an interrupt issued before the call starts is discarded — speech
synthesis still runs — and the response is tagged `interrupted=true`
exactly when an interrupt arrives after the reset and before the check. -/
theorem voice_reset_discards_prior_interrupt (synth : PyStr → TtsOutcome)
    (chatReply : PyStr) (m : AssistantMode) (priorInterrupted : Bool)
    (priorText : PyStr) (transcript : PyStr) (mode : AssistantMode)
    (h : pyStrip transcript ≠ []) :
    (processVoiceText synth chatReply ⟨m, priorInterrupted, priorText⟩ false
      transcript mode).1.interrupted = false ∧
    (processVoiceText synth chatReply ⟨m, priorInterrupted, priorText⟩ false
      transcript mode).2.2 = true ∧
    (processVoiceText synth chatReply ⟨m, priorInterrupted, priorText⟩ false
      transcript mode).1.ttsBackend = (synth chatReply).backend ∧
    (processVoiceText synth chatReply ⟨m, priorInterrupted, priorText⟩ false
      transcript mode).2.1.lastPartialText = [] ∧
    (∀ arrives : Bool,
      (processVoiceText synth chatReply ⟨m, priorInterrupted, priorText⟩ arrives
        transcript mode).1.interrupted = arrives) := by
  refine ⟨by simp [processVoiceText, h], by simp [processVoiceText, h],
    by simp [processVoiceText, h], by simp [processVoiceText, h],
    fun arrives => by cases arrives <;> simp [processVoiceText, h]⟩

/-- Witness for C9 on a concrete pre-interrupted session. -/
theorem voice_reset_discards_prior_interrupt_witness :
    (processVoiceText (fun _ => ⟨"o.wav".toList, "say".toList⟩) "ok".toList
      ⟨.chat, true, "p".toList⟩ false "hey".toList .chat).1.interrupted = false ∧
    (processVoiceText (fun _ => ⟨"o.wav".toList, "say".toList⟩) "ok".toList
      ⟨.chat, true, "p".toList⟩ false "hey".toList .chat).2.2 = true ∧
    (processVoiceText (fun _ => ⟨"o.wav".toList, "say".toList⟩) "ok".toList
      ⟨.chat, true, "p".toList⟩ false "hey".toList .chat).1.ttsBackend =
      ((fun (_ : PyStr) => (⟨"o.wav".toList, "say".toList⟩ : TtsOutcome)) "ok".toList).backend ∧
    (processVoiceText (fun _ => ⟨"o.wav".toList, "say".toList⟩) "ok".toList
      ⟨.chat, true, "p".toList⟩ false "hey".toList .chat).2.1.lastPartialText = [] ∧
    (∀ arrives : Bool,
      (processVoiceText (fun _ => ⟨"o.wav".toList, "say".toList⟩) "ok".toList
        ⟨.chat, true, "p".toList⟩ arrives "hey".toList .chat).1.interrupted = arrives) :=
  voice_reset_discards_prior_interrupt (fun _ => ⟨"o.wav".toList, "say".toList⟩)
    "ok".toList .chat true "p".toList "hey".toList .chat (by decide)

/-! ## Claim C2: safe_shell allow-list boundary -/

/-- Characterization of one allow-list entry check. -/
theorem shellEntryOk_iff {lowered entry : PyStr} :
    shellEntryOk lowered entry = true ↔
      pyLower (pyStrip entry) ≠ [] ∧
      (lowered = pyLower (pyStrip entry) ∨
       ∃ c rest, lowered = pyLower (pyStrip entry) ++ c :: rest ∧ pyIsSpace c = true) := by
  unfold shellEntryOk
  set n := pyLower (pyStrip entry) with hn
  by_cases hne : n = []
  · simp [hne]
  · rw [if_neg hne]
    by_cases heq : lowered = n
    · simp [heq, hne]
    · rw [if_neg heq]
      simp only [hne, ne_eq, not_false_eq_true, true_and]
      constructor
      · intro h
        rw [Bool.and_eq_true] at h
        obtain ⟨hpre, hrest⟩ := h
        rw [pyStartsWith, List.isPrefixOf_iff_prefix] at hpre
        obtain ⟨t, ht⟩ := hpre
        have hdrop : lowered.drop n.length = t := by
          rw [← ht, List.drop_left]
        rw [hdrop] at hrest
        cases t with
        | nil => simp at hrest
        | cons c rest =>
          exact Or.inr ⟨c, rest, by rw [← ht], hrest⟩
      · rintro (h | ⟨c, rest, hEq, hc⟩)
        · exact absurd h heq
        · rw [Bool.and_eq_true]
          constructor
          · rw [pyStartsWith, List.isPrefixOf_iff_prefix]
            exact ⟨c :: rest, hEq.symm⟩
          · have hdrop : lowered.drop n.length = c :: rest := by
              rw [hEq, List.drop_left]
            rw [hdrop]
            exact hc

/-- Claim C2: for every `safe_shell` step, `evaluate` allows only a command
whose trimmed lowercase form equals a (non-empty, trimmed, lowercased)
allow-list entry or extends it with a whitespace character right after it;
in particular `"python --versionx"` against the default allow-list
(containing `"python --version"`) is rejected. -/
theorem safe_shell_allowed_requires_boundary :
    (∀ (S : Settings) (step : PlanStep), step.tool = some "safe_shell".toList →
      (evaluate S step).allowed = true →
      ∃ entry ∈ S.allowedShellPrefixes,
        pyLower (pyStrip entry) ≠ [] ∧
        (pyLower (pyStrip step.args.command) = pyLower (pyStrip entry) ∨
         ∃ c rest, pyLower (pyStrip step.args.command) =
           pyLower (pyStrip entry) ++ c :: rest ∧ pyIsSpace c = true)) ∧
    (evaluate defaultSettings
      { id := "s1".toList, description := "run python".toList,
        tool := some "safe_shell".toList,
        args := { command := "python --versionx".toList } }).allowed = false := by
  constructor
  · intro S step htool hallow
    simp only [evaluate, htool] at hallow
    by_cases htools : "safe_shell".toList ∈ S.allowedTools
    · rw [if_neg (not_not_intro htools), if_neg (by decide), if_neg (by decide),
        if_neg (by decide), if_neg (by decide), if_pos trivial] at hallow
      by_cases h1 : pyStrip step.args.command = []
      · rw [if_pos h1] at hallow
        simp at hallow
      · rw [if_neg h1] at hallow
        by_cases h2 : containsLineBreak (pyStrip step.args.command) = true
        · rw [if_pos h2] at hallow
          simp at hallow
        · rw [if_neg h2] at hallow
          by_cases h3 : containsShellControlOperator (pyStrip step.args.command) = true
          · rw [if_pos h3] at hallow
            simp at hallow
          · rw [if_neg h3] at hallow
            by_cases h4 : S.blockedShellTerms.any
                (fun term => pyContains
                  (' ' :: pyLower (pyStrip step.args.command) ++ [' '])
                  (pyLower term)) = true
            · rw [if_pos h4] at hallow
              simp at hallow
            · rw [if_neg h4] at hallow
              by_cases h5 : isAllowlistedShellCmd (pyStrip step.args.command)
                  S.allowedShellPrefixes = true
              · rw [isAllowlistedShellCmd, List.any_eq_true] at h5
                obtain ⟨entry, hmem, hok⟩ := h5
                rw [shellEntryOk_iff, pyStrip_idem] at hok
                exact ⟨entry, hmem, hok⟩
              · rw [if_neg h5] at hallow
                simp at hallow
    · rw [if_pos htools] at hallow
      simp at hallow
  · decide

/-- Witness for C2's universal part: applying it to the allowed command
`"echo hi"` under the default settings yields a boundary decomposition. -/
theorem safe_shell_allowed_requires_boundary_witness :
    ∃ entry ∈ defaultSettings.allowedShellPrefixes,
      pyLower (pyStrip entry) ≠ [] ∧
      (pyLower (pyStrip ("echo hi".toList : PyStr)) = pyLower (pyStrip entry) ∨
       ∃ c rest, pyLower (pyStrip ("echo hi".toList : PyStr)) =
         pyLower (pyStrip entry) ++ c :: rest ∧ pyIsSpace c = true) :=
  safe_shell_allowed_requires_boundary.1 defaultSettings
    { id := "s1".toList, description := "echo".toList,
      tool := some "safe_shell".toList,
      args := { command := "echo hi".toList } } rfl (by decide)

/-! ## Claim C7: safe_shell control operators and line breaks -/

/-- Every blocked control operator is non-empty, whitespace-free and fixed
by lowercasing. -/
theorem blockedControlOperators_facts :
    ∀ op ∈ blockedControlOperators,
      op ≠ [] ∧ (∀ c ∈ op, pyIsSpace c = false) ∧ pyLower op = op := by
  decide

/-- Counterexample to claim C7 as stated: the command `"echo hi\n"`
contains a line break, yet `evaluate` strips the command first and allows
it (the trailing newline disappears before the line-break check). -/
theorem safe_shell_trailing_break_allowed :
    pyContains
      ({ id := "s1".toList, description := "shell".toList,
         tool := some "safe_shell".toList,
         args := { command := ("echo hi" ++ "\n").toList } } : PlanStep).args.command
      ['\n'] = true ∧
    (evaluate defaultSettings
      { id := "s1".toList, description := "shell".toList,
        tool := some "safe_shell".toList,
        args := { command := ("echo hi" ++ "\n").toList } }).allowed = true := by
  decide

/-- Claim C7 (amended): for every `safe_shell` step whose command contains
one of the control operators `&&`, `||`, `|`, `;`, `<`, `>`, `$(`, the
backtick, `&` — anywhere in the raw command — or contains a line break
surviving the strip of leading/trailing whitespace, `evaluate` returns
`allowed=false` with high risk. -/
theorem safe_shell_operator_blocked_high (S : Settings) (step : PlanStep)
    (htool : step.tool = some "safe_shell".toList)
    (h : (∃ op ∈ blockedControlOperators, op <:+: step.args.command) ∨
         (∃ c ∈ pyStrip step.args.command, c = '\n' ∨ c = '\r')) :
    (evaluate S step).allowed = false ∧ (evaluate S step).risk = .high := by
  simp only [evaluate, htool]
  by_cases htools : "safe_shell".toList ∈ S.allowedTools
  · rw [if_neg (not_not_intro htools), if_neg (by decide), if_neg (by decide),
      if_neg (by decide), if_neg (by decide), if_pos trivial]
    by_cases h1 : pyStrip step.args.command = []
    · rw [if_pos h1]
      exact ⟨rfl, rfl⟩
    · rw [if_neg h1]
      by_cases h2 : containsLineBreak (pyStrip step.args.command) = true
      · rw [if_pos h2]
        exact ⟨rfl, rfl⟩
      · have h3 : containsShellControlOperator (pyStrip step.args.command) = true := by
          rcases h with ⟨op, hop, hinf⟩ | ⟨c, hc, hcr⟩
          · obtain ⟨hne, hns, hfix⟩ := blockedControlOperators_facts op hop
            have hstrip : op <:+: pyStrip step.args.command :=
              IsInfix.pyStrip_of_no_space hne hns hinf
            have hmap := List.IsInfix.map pyLowerChar hstrip
            rw [show List.map pyLowerChar op = pyLower op from rfl, hfix] at hmap
            rw [containsShellControlOperator, List.any_eq_true]
            exact ⟨op, hop, pyContains_iff.mpr hmap⟩
          · exfalso
            apply h2
            rw [containsLineBreak, Bool.or_eq_true]
            rcases hcr with rfl | rfl
            · exact Or.inl (pyContains_singleton_iff.mpr hc)
            · exact Or.inr (pyContains_singleton_iff.mpr hc)
        rw [if_neg h2, if_pos h3]
        exact ⟨rfl, rfl⟩
  · rw [if_pos htools]
    exact ⟨rfl, rfl⟩

/-- Witness for C7's amended statement on the command `"echo x && rm y"`. -/
theorem safe_shell_operator_blocked_high_witness :
    (evaluate defaultSettings
      { id := "s1".toList, description := "shell".toList,
        tool := some "safe_shell".toList,
        args := { command := "echo x && rm y".toList } }).allowed = false ∧
    (evaluate defaultSettings
      { id := "s1".toList, description := "shell".toList,
        tool := some "safe_shell".toList,
        args := { command := "echo x && rm y".toList } }).risk = .high :=
  safe_shell_operator_blocked_high defaultSettings
    { id := "s1".toList, description := "shell".toList,
      tool := some "safe_shell".toList,
      args := { command := "echo x && rm y".toList } } rfl
    (Or.inl ⟨"&&".toList, by decide,
      pyContains_iff.mp (by decide)⟩)

/-! ## Claim C1: one success plus one skipped step -/

/-- Counterexample to claim C1 as stated: under the default settings, a
two-step plan — an allow-listed `open_app` step whose tool call succeeds
and an allow-listed `safe_shell` step that is not pre-approved — produces
one Success and one Skipped timeline entry, but the final status is
`completed`, not `partial_success` (a skipped step increments neither
tally, so `failures = 0` and `successes = 1`). -/
theorem plan_success_skip_status_not_partial :
    countStatus .success (executePlan defaultSettings []
      (fun _ _ => ⟨true, "Opened notepad.".toList⟩)
      [{ id := "step_1".toList, description := "Open notepad".toList,
         tool := some "open_app".toList, args := { appName := "notepad".toList },
         needsApproval := false },
       { id := "step_2".toList, description := "Run a safe shell command".toList,
         tool := some "safe_shell".toList, args := { command := "echo hi".toList },
         needsApproval := true }]).1 = 1 ∧
    countStatus .skipped (executePlan defaultSettings []
      (fun _ _ => ⟨true, "Opened notepad.".toList⟩)
      [{ id := "step_1".toList, description := "Open notepad".toList,
         tool := some "open_app".toList, args := { appName := "notepad".toList },
         needsApproval := false },
       { id := "step_2".toList, description := "Run a safe shell command".toList,
         tool := some "safe_shell".toList, args := { command := "echo hi".toList },
         needsApproval := true }]).1 = 1 ∧
    (executePlan defaultSettings []
      (fun _ _ => ⟨true, "Opened notepad.".toList⟩)
      [{ id := "step_1".toList, description := "Open notepad".toList,
         tool := some "open_app".toList, args := { appName := "notepad".toList },
         needsApproval := false },
       { id := "step_2".toList, description := "Run a safe shell command".toList,
         tool := some "safe_shell".toList, args := { command := "echo hi".toList },
         needsApproval := true }]).2 ≠ RunStatus.partSuccess := by
  decide

/-- Claim C1 (amended): executing a stored plan of exactly two steps — a
policy-allowed `open_app` step (no approval required) whose tool execution
succeeds, and a policy-allowed `safe_shell` step that requires approval and
whose id is not in the caller's `approved_steps` — yields a run whose
timeline has one Success and one Skipped entry and whose final status is
`completed` (zero failures and a positive success count). -/
theorem plan_success_skip_status_completed (S : Settings) (approved : List PyStr)
    (execTool : PyStr → PlanArgs → ToolExecutionResult) (s1 s2 : PlanStep)
    (h1tool : s1.tool = some "open_app".toList)
    (h1allow : (evaluate S s1).allowed = true)
    (h1appr : s1.needsApproval = false)
    (h1exec : (execTool "open_app".toList s1.args).success = true)
    (h2allow : (evaluate S s2).allowed = true)
    (h2appr : s2.needsApproval = true)
    (h2not : s2.id ∉ approved) :
    countStatus .success (executePlan S approved execTool [s1, s2]).1 = 1 ∧
    countStatus .skipped (executePlan S approved execTool [s1, s2]).1 = 1 ∧
    (executePlan S approved execTool [s1, s2]).2 = RunStatus.completed := by
  have hrun1 : stepRun S approved execTool s1 =
      ([⟨s1.id, .running, s1.description⟩,
        ⟨s1.id, .success, (execTool "open_app".toList s1.args).message⟩], 1, 0) := by
    unfold stepRun
    rw [if_neg (by simp [h1allow]), if_neg (by simp [h1appr]), h1tool]
    simp only []
    rw [if_pos h1exec]
  have hrun2 : stepRun S approved execTool s2 =
      ([⟨s2.id, .skipped, "Skipped because approval is missing.".toList⟩], 0, 0) := by
    unfold stepRun
    rw [if_neg (by simp [h2allow]), if_pos ⟨h2appr, h2not⟩]
  simp [executePlan, runSteps, hrun1, hrun2, countStatus, statusOf]

/-- Witness for C1's amended statement on the concrete two-step plan. -/
theorem plan_success_skip_status_completed_witness :
    countStatus .success (executePlan defaultSettings []
      (fun _ _ => ⟨true, "ok".toList⟩)
      [{ id := "step_1".toList, description := "Open notepad".toList,
         tool := some "open_app".toList, args := { appName := "notepad".toList },
         needsApproval := false },
       { id := "step_2".toList, description := "Run a safe shell command".toList,
         tool := some "safe_shell".toList, args := { command := "echo hi".toList },
         needsApproval := true }]).1 = 1 ∧
    countStatus .skipped (executePlan defaultSettings []
      (fun _ _ => ⟨true, "ok".toList⟩)
      [{ id := "step_1".toList, description := "Open notepad".toList,
         tool := some "open_app".toList, args := { appName := "notepad".toList },
         needsApproval := false },
       { id := "step_2".toList, description := "Run a safe shell command".toList,
         tool := some "safe_shell".toList, args := { command := "echo hi".toList },
         needsApproval := true }]).1 = 1 ∧
    (executePlan defaultSettings []
      (fun _ _ => ⟨true, "ok".toList⟩)
      [{ id := "step_1".toList, description := "Open notepad".toList,
         tool := some "open_app".toList, args := { appName := "notepad".toList },
         needsApproval := false },
       { id := "step_2".toList, description := "Run a safe shell command".toList,
         tool := some "safe_shell".toList, args := { command := "echo hi".toList },
         needsApproval := true }]).2 = RunStatus.completed :=
  plan_success_skip_status_completed defaultSettings []
    (fun _ _ => ⟨true, "ok".toList⟩)
    { id := "step_1".toList, description := "Open notepad".toList,
      tool := some "open_app".toList, args := { appName := "notepad".toList },
      needsApproval := false }
    { id := "step_2".toList, description := "Run a safe shell command".toList,
      tool := some "safe_shell".toList, args := { command := "echo hi".toList },
      needsApproval := true }
    rfl (by decide) rfl (by decide) (by decide) rfl (by decide)

/-! ## Claim C8: blocked steps share the failure tally -/

/-- Per-step bookkeeping: the success delta is its Success entry count and
the failure delta its Blocked-plus-Failed entry count. -/
theorem stepRun_counts (S : Settings) (approved : List PyStr)
    (execTool : PyStr → PlanArgs → ToolExecutionResult) (step : PlanStep) :
    (stepRun S approved execTool step).2.1
      = countStatus .success (stepRun S approved execTool step).1 ∧
    (stepRun S approved execTool step).2.2
      = countStatus .blocked (stepRun S approved execTool step).1
        + countStatus .failed (stepRun S approved execTool step).1 := by
  unfold stepRun
  by_cases hb : (evaluate S step).allowed
  · rw [if_neg (by simp [hb])]
    by_cases hs : step.needsApproval = true ∧ step.id ∉ approved
    · rw [if_pos hs]
      simp [countStatus]
    · rw [if_neg hs]
      cases htool : step.tool with
      | none => simp [countStatus]
      | some tool =>
        by_cases hres : (execTool tool step.args).success
        · simp [hres, countStatus]
        · simp [hres, countStatus]
  · rw [if_pos (by simp [Bool.not_eq_true] at hb ⊢; exact hb)]
    simp [countStatus]

/-- Unfolding equation of the step loop on a non-empty plan. -/
theorem runSteps_cons (S : Settings) (approved : List PyStr)
    (execTool : PyStr → PlanArgs → ToolExecutionResult) (s : PlanStep)
    (rest : List PlanStep) :
    runSteps S approved execTool (s :: rest) =
      ((stepRun S approved execTool s).1 ++ (runSteps S approved execTool rest).1,
       (stepRun S approved execTool s).2.1 + (runSteps S approved execTool rest).2.1,
       (stepRun S approved execTool s).2.2 + (runSteps S approved execTool rest).2.2) :=
  rfl

/-- Counting a status over a concatenated timeline. -/
theorem countStatus_append (status : StepStatus) (l₁ l₂ : List RunStepEvent) :
    countStatus status (l₁ ++ l₂) = countStatus status l₁ + countStatus status l₂ := by
  rw [countStatus, List.filter_append, List.length_append, ← countStatus, ← countStatus]

/-- Whole-run bookkeeping: the loop's tallies coincide with the timeline's
Success and Blocked-plus-Failed entry counts. -/
theorem runSteps_counts (S : Settings) (approved : List PyStr)
    (execTool : PyStr → PlanArgs → ToolExecutionResult) :
    ∀ steps : List PlanStep,
      (runSteps S approved execTool steps).2.1
        = countStatus .success (runSteps S approved execTool steps).1 ∧
      (runSteps S approved execTool steps).2.2
        = countStatus .blocked (runSteps S approved execTool steps).1
          + countStatus .failed (runSteps S approved execTool steps).1 := by
  intro steps
  induction steps with
  | nil => simp [runSteps, countStatus]
  | cons s rest ih =>
    obtain ⟨ihs, ihf⟩ := ih
    obtain ⟨hs, hf⟩ := stepRun_counts S approved execTool s
    rw [runSteps_cons]
    dsimp only
    constructor
    · rw [countStatus_append, ihs, hs]
    · rw [countStatus_append, countStatus_append, ihf, hf]
      omega

/-- A plan whose steps are all policy-blocked produces no successes. -/
theorem runSteps_all_blocked_zero_success (S : Settings) (approved : List PyStr)
    (execTool : PyStr → PlanArgs → ToolExecutionResult) :
    ∀ steps : List PlanStep, (∀ s ∈ steps, (evaluate S s).allowed = false) →
      (runSteps S approved execTool steps).2.1 = 0 := by
  intro steps
  induction steps with
  | nil => simp [runSteps]
  | cons s rest ih =>
    intro h
    have hsb : (evaluate S s).allowed = false := h s (by simp)
    have hrest := ih (fun x hx => h x (by simp [hx]))
    show (stepRun S approved execTool s).2.1 + _ = 0
    rw [hrest]
    unfold stepRun
    rw [if_pos (by simp [hsb])]

/-- A plan containing a policy-blocked step records at least one failure. -/
theorem runSteps_exists_blocked_failure (S : Settings) (approved : List PyStr)
    (execTool : PyStr → PlanArgs → ToolExecutionResult) :
    ∀ steps : List PlanStep, (∃ s ∈ steps, (evaluate S s).allowed = false) →
      0 < (runSteps S approved execTool steps).2.2 := by
  intro steps
  induction steps with
  | nil => simp
  | cons s rest ih =>
    rintro ⟨x, hx, hxb⟩
    show 0 < (stepRun S approved execTool s).2.2 + (runSteps S approved execTool rest).2.2
    rcases List.mem_cons.mp hx with rfl | hxr
    · have : (stepRun S approved execTool x).2.2 = 1 := by
        unfold stepRun
        rw [if_pos (by simp [hxb])]
      omega
    · have := ih ⟨x, hxr, hxb⟩
      omega

/-- Claim C8: blocked steps increment the same failure tally used for the
final status — the status is always `statusOf` of the timeline's Success
count and Blocked-plus-Failed count, an all-blocked plan finishes `failed`,
a plan with a blocked step and a successful step finishes
`partial_success`, and a step leaves both tallies unchanged exactly when it
is an allowed, approval-requiring step missing its approval (Skipped). -/
theorem blocked_steps_count_as_failures (S : Settings) (approved : List PyStr)
    (execTool : PyStr → PlanArgs → ToolExecutionResult) (steps : List PlanStep) :
    ((executePlan S approved execTool steps).2
      = statusOf
          (countStatus .success (executePlan S approved execTool steps).1)
          (countStatus .blocked (executePlan S approved execTool steps).1
            + countStatus .failed (executePlan S approved execTool steps).1)) ∧
    ((∀ s ∈ steps, (evaluate S s).allowed = false) →
      (executePlan S approved execTool steps).2 = RunStatus.failed) ∧
    ((∃ s ∈ steps, (evaluate S s).allowed = false) →
      0 < countStatus .success (executePlan S approved execTool steps).1 →
      (executePlan S approved execTool steps).2 = RunStatus.partSuccess) ∧
    (∀ step : PlanStep,
      ((stepRun S approved execTool step).2.1 = 0 ∧
        (stepRun S approved execTool step).2.2 = 0) ↔
      ((evaluate S step).allowed = true ∧ step.needsApproval = true ∧
        step.id ∉ approved)) := by
  simp only [executePlan]
  obtain ⟨hs, hf⟩ := runSteps_counts S approved execTool steps
  refine ⟨?_, ?_, ?_, ?_⟩
  · rw [← hs, ← hf]
  · intro hall
    rw [runSteps_all_blocked_zero_success S approved execTool steps hall]
    unfold statusOf
    simp
  · intro hex hsucc
    have hfail := runSteps_exists_blocked_failure S approved execTool steps hex
    rw [← hs] at hsucc
    unfold statusOf
    rw [if_neg (by omega), if_pos (by omega)]
  · intro step
    unfold stepRun
    by_cases hb : (evaluate S step).allowed
    · rw [if_neg (by simp [hb])]
      by_cases hsk : step.needsApproval = true ∧ step.id ∉ approved
      · rw [if_pos hsk]
        simpa [hb] using hsk
      · rw [if_neg hsk]
        cases htool : step.tool with
        | none => simpa [hb] using hsk
        | some tool =>
          by_cases hres : (execTool tool step.args).success
          · simpa [hres, hb] using hsk
          · simpa [hres, hb] using hsk
    · rw [if_pos (by simp [Bool.not_eq_true] at hb ⊢; exact hb)]
      simp [Bool.not_eq_true] at hb
      simp [hb]

/-- Witness for C8 on a concrete all-blocked one-step plan. -/
theorem blocked_steps_count_as_failures_witness :
    (executePlan defaultSettings [] (fun _ _ => ⟨true, "ok".toList⟩)
      [{ id := "step_1".toList, description := "bad".toList,
         tool := some "unknown_tool".toList, args := {} }]).2 = RunStatus.failed :=
  (blocked_steps_count_as_failures defaultSettings []
    (fun _ _ => ⟨true, "ok".toList⟩)
    [{ id := "step_1".toList, description := "bad".toList,
       tool := some "unknown_tool".toList, args := {} }]).2.1 (by decide)

/-! ## Claim C10: "list reminders" triggers a set step before the list step -/

/-- Policy scoring never changes a step's tool. -/
theorem scoreStep_tool (S : Settings) (st : PlanStep) :
    (scoreStep S st).tool = st.tool := by
  unfold scoreStep
  dsimp only
  split <;> rfl

/-- Policy scoring never changes a step's args. -/
theorem scoreStep_args (S : Settings) (st : PlanStep) :
    (scoreStep S st).args = st.args := by
  unfold scoreStep
  dsimp only
  split <;> rfl

/-- On a non-Code goal containing `"list reminders"` whose app-name
extraction returns normally, the extracted steps are — after at most one
`open_app` step — a reminder `set` step immediately followed by a reminder
`list` step (the substring `"remind"` inside `"reminders"` fires the
set-reminder heuristic first). -/
theorem extractSteps_list_reminders_decomp (S : Settings) (now : Nat)
    (goal : PyStr) (mode : AssistantMode) (appOpt : Option PyStr)
    (hmode : mode ≠ .code)
    (hlist : pyContains (pyLower (pyStrip goal)) "list reminders".toList = true)
    (happ : extractAppName S (pyLower (pyStrip goal)) = .ok appOpt) :
    ∃ pre tail s l,
      extractSteps S now goal mode = .ok (pre ++ s :: l :: tail) ∧ pre.length ≤ 1 ∧
      s.tool = some "reminder".toList ∧ s.args.action = "set".toList ∧
      l.tool = some "reminder".toList ∧ l.args.action = "list".toList := by
  have hremind : pyContains (pyLower (pyStrip goal)) "remind".toList = true := by
    refine pyContains_iff.mpr (List.IsInfix.trans ?_ (pyContains_iff.mp hlist))
    exact pyContains_iff.mp (by decide : pyContains "list reminders".toList
      "remind".toList = true)
  simp only [extractSteps, if_neg hmode]
  rw [happ]
  rcases appOpt with _ | app <;>
    by_cases h4 : (pyContains (pyLower (pyStrip goal)) "play music".toList
      || pyStartsWith (pyLower (pyStrip goal)) "play ".toList) = true <;>
    by_cases h5 : (pyContains (pyLower (pyStrip goal)) "write code".toList
      || pyContains (pyLower (pyStrip goal)) "generate code".toList
      || pyContains (pyLower (pyStrip goal)) "create script".toList) = true <;>
    rcases hsh : extractShellCommand (pyStrip goal) with _ | cmd <;>
    simp only [hremind, hlist, h4, h5, hsh, Bool.true_or, Bool.or_true,
      Bool.true_eq_false, Bool.false_eq_true, if_true, if_false, eq_self_iff_true,
      List.nil_append, List.cons_append, List.append_nil, List.length_nil,
      List.length_cons, List.length_append, reduceIte, List.cons_ne_nil,
      ite_false, ite_true]
  all_goals
    first
      | exact ⟨[], _, _, _, rfl, by simp, rfl, rfl, rfl, rfl⟩
      | exact ⟨[_], _, _, _, rfl, by simp, rfl, rfl, rfl, rfl⟩

/-- Counterexample to claim C10 as stated: the non-Code goal
`"list reminders open  !x"` contains `"list reminders"`, yet
`Planner.create_plan` produces no reminder steps at all — the app-name
regex captures a whitespace-only group (its capture class contains the
space), `_extract_app_name` raises `IndexError` at `.split()[0]`, and the
exception propagates out of `create_plan`. -/
theorem planner_list_reminders_crash :
    pyContains (pyLower (pyStrip "list reminders open  !x".toList))
      "list reminders".toList = true ∧
    planSteps defaultSettings 0 "list reminders open  !x".toList .action =
      .error () :=
  ⟨by decide, rfl⟩

/-- Claim C10 (amended): for every non-Code goal whose lowercased text
contains `"list reminders"`, a step cap of at least 3, and on which the
planner returns normally (the app-name extraction does not raise), the
stored steps contain a reminder step with `action="set"` — fired because
`"remind"` occurs inside `"reminders"` — immediately followed by a
reminder step with `action="list"`, the set step ordered first. -/
theorem planner_list_reminders_set_before_list (S : Settings) (now : Nat)
    (goal : PyStr) (mode : AssistantMode) (steps : List PlanStep)
    (hmode : mode ≠ .code) (hmax : 3 ≤ S.maxPlanSteps)
    (hlist : pyContains (pyLower (pyStrip goal)) "list reminders".toList = true)
    (hok : planSteps S now goal mode = .ok steps) :
    ∃ i s l,
      steps[i]? = some s ∧ steps[i + 1]? = some l ∧
      s.tool = some "reminder".toList ∧ s.args.action = "set".toList ∧
      l.tool = some "reminder".toList ∧ l.args.action = "list".toList := by
  cases happ : extractAppName S (pyLower (pyStrip goal)) with
  | error e =>
    exfalso
    have hext : extractSteps S now goal mode = .error e := by
      simp only [extractSteps, if_neg hmode]
      rw [happ]
    simp [planSteps, hext] at hok
  | ok appOpt =>
    obtain ⟨pre, tail, s0, l0, heq, hlen, hs1, hs2, hl1, hl2⟩ :=
      extractSteps_list_reminders_decomp S now goal mode appOpt hmode hlist happ
    have hsteps : steps =
        ((pre ++ s0 :: l0 :: tail).map (scoreStep S)).take S.maxPlanSteps := by
      simp only [planSteps, heq, Except.ok.injEq] at hok
      exact hok.symm
    have hmap : steps =
        ((pre.map (scoreStep S)) ++ scoreStep S s0 :: scoreStep S l0 ::
          tail.map (scoreStep S)).take S.maxPlanSteps := by
      rw [hsteps]
      simp
    refine ⟨pre.length, scoreStep S s0, scoreStep S l0, ?_, ?_, ?_, ?_, ?_, ?_⟩
    · rw [hmap, List.getElem?_take, if_pos (by omega), List.getElem?_append,
        if_neg (by simp)]
      simp
    · rw [hmap, List.getElem?_take, if_pos (by omega), List.getElem?_append,
        if_neg (by simp)]
      simp
    · rw [scoreStep_tool, hs1]
    · rw [scoreStep_args, hs2]
    · rw [scoreStep_tool, hl1]
    · rw [scoreStep_args, hl2]

/-- Witness for C10's amended statement on the goal `"list reminders"`
under default settings, whose plan the planner returns normally. -/
theorem planner_list_reminders_set_before_list_witness :
    ∃ i s l,
      ([{ id := "step_1".toList, description := "Create a reminder".toList,
          tool := some "reminder".toList,
          args := { action := "set".toList, note := "list reminders".toList,
                    dueAt := 30 },
          risk := .low, needsApproval := false },
        { id := "step_2".toList, description := "List active reminders".toList,
          tool := some "reminder".toList,
          args := { action := "list".toList },
          risk := .low, needsApproval := false }] : List PlanStep)[i]? = some s ∧
      ([{ id := "step_1".toList, description := "Create a reminder".toList,
          tool := some "reminder".toList,
          args := { action := "set".toList, note := "list reminders".toList,
                    dueAt := 30 },
          risk := .low, needsApproval := false },
        { id := "step_2".toList, description := "List active reminders".toList,
          tool := some "reminder".toList,
          args := { action := "list".toList },
          risk := .low, needsApproval := false }] : List PlanStep)[i + 1]? = some l ∧
      s.tool = some "reminder".toList ∧ s.args.action = "set".toList ∧
      l.tool = some "reminder".toList ∧ l.args.action = "list".toList :=
  planner_list_reminders_set_before_list defaultSettings 0 "list reminders".toList
    .action
    [{ id := "step_1".toList, description := "Create a reminder".toList,
       tool := some "reminder".toList,
       args := { action := "set".toList, note := "list reminders".toList,
                 dueAt := 30 },
       risk := .low, needsApproval := false },
     { id := "step_2".toList, description := "List active reminders".toList,
       tool := some "reminder".toList,
       args := { action := "list".toList },
       risk := .low, needsApproval := false }]
    (by decide) (by decide) (by decide) (by rfl)

/-! ## Claim C4: exhausted cloud retries fall back and warn -/

/-- Claim C4: with cloud enabled, `cloud_max_retries = 1`, a cloud reasoner
that raises on both attempts, and a transcript classified as requiring deep
reasoning, `dispatch` reports `cloud_attempts = 2`, falls back to
`"local"` when the parsed local reply is non-empty and to
`"deterministic-fallback"` otherwise, and records one failure warning per
cloud attempt.  The cloud exceptions never propagate: the model of
`dispatch` is a total function and the `Except.error` outcomes surface
only as warning strings. -/
theorem cloud_failing_retries_exhausted (D : Dispatcher) (transcript e0 e1 : PyStr)
    (hen : D.cloudEnabled = true) (hret : D.cloudMaxRetries = 1)
    (hg0 : D.cloudGen 0 = .error e0) (hg1 : D.cloudGen 1 = .error e1)
    (hdeep : (classify (pyStrip transcript)).requiresDeepReasoning = true) :
    (dispatch D transcript).cloudAttempts = 2 ∧
    ((parsePayload D (D.localGen (pyStrip transcript)) (pyStrip transcript)
        (classify (pyStrip transcript))).reply ≠ [] →
      (dispatch D transcript).llmBackend = "local".toList) ∧
    ((parsePayload D (D.localGen (pyStrip transcript)) (pyStrip transcript)
        (classify (pyStrip transcript))).reply = [] →
      (dispatch D transcript).llmBackend = "deterministic-fallback".toList) ∧
    cloudFailMsg 1 e0 ∈ (dispatch D transcript).warnings ∧
    cloudFailMsg 2 e1 ∈ (dispatch D transcript).warnings := by
  have hclean : pyStrip transcript ≠ [] := by
    intro h
    rw [h] at hdeep
    have hempty : (classify ([] : PyStr)).requiresDeepReasoning = false := by decide
    rw [hempty] at hdeep
    simp at hdeep
  have hretry : generateWithCloudRetry D =
      ([], 2, [cloudFailMsg 1 e0, cloudFailMsg 2 e1]) := by
    rw [generateWithCloudRetry, hret]
    show cloudRetryGo D 2 0 [] = _
    rw [cloudRetryGo]
    simp only [Nat.add_sub_cancel, hg0, Nat.zero_add]
    rw [cloudRetryGo]
    simp only [Nat.add_sub_cancel, hg1]
    rw [cloudRetryGo]
    simp
  have hdisp : dispatch D transcript =
      dispatchTail (pyStrip transcript) (classify (pyStrip transcript))
        (parsePayload D (D.localGen (pyStrip transcript)) (pyStrip transcript)
          (classify (pyStrip transcript))) true none 2
        [cloudFailMsg 1 e0, cloudFailMsg 2 e1] := by
    rw [dispatch]
    rw [if_neg hclean]
    dsimp only
    rw [hen, hdeep, hretry]
    simp
  rw [hdisp]
  by_cases hlp : (parsePayload D (D.localGen (pyStrip transcript)) (pyStrip transcript)
      (classify (pyStrip transcript))).reply = []
  · refine ⟨by simp [dispatchTail, hlp], by intro h; exact absurd hlp h,
      fun _ => by simp [dispatchTail, hlp], by simp [dispatchTail, hlp],
      by simp [dispatchTail, hlp]⟩
  · refine ⟨by simp [dispatchTail, hlp], fun _ => by simp [dispatchTail, hlp],
      by intro h; exact absurd h hlp, by simp [dispatchTail, hlp],
      by simp [dispatchTail, hlp]⟩

/-- Witness for C4: a concrete dispatcher whose cloud reasoner raises on
every attempt, on a deep-reasoning transcript. -/
theorem cloud_failing_retries_exhausted_witness :
    (dispatch
      { cloudEnabled := true, cloudMaxRetries := 1,
        localGen := fun _ => "local answer".toList,
        cloudGen := fun _ => .error "boom".toList,
        tryParseJson := fun _ => none }
      "why is this failing".toList).cloudAttempts = 2 ∧
    ((parsePayload
        { cloudEnabled := true, cloudMaxRetries := 1,
          localGen := fun _ => "local answer".toList,
          cloudGen := fun _ => .error "boom".toList,
          tryParseJson := fun _ => none }
        (((fun (_ : PyStr) => "local answer".toList)) (pyStrip "why is this failing".toList))
        (pyStrip "why is this failing".toList)
        (classify (pyStrip "why is this failing".toList))).reply ≠ [] →
      (dispatch
        { cloudEnabled := true, cloudMaxRetries := 1,
          localGen := fun _ => "local answer".toList,
          cloudGen := fun _ => .error "boom".toList,
          tryParseJson := fun _ => none }
        "why is this failing".toList).llmBackend = "local".toList) ∧
    ((parsePayload
        { cloudEnabled := true, cloudMaxRetries := 1,
          localGen := fun _ => "local answer".toList,
          cloudGen := fun _ => .error "boom".toList,
          tryParseJson := fun _ => none }
        (((fun (_ : PyStr) => "local answer".toList)) (pyStrip "why is this failing".toList))
        (pyStrip "why is this failing".toList)
        (classify (pyStrip "why is this failing".toList))).reply = [] →
      (dispatch
        { cloudEnabled := true, cloudMaxRetries := 1,
          localGen := fun _ => "local answer".toList,
          cloudGen := fun _ => .error "boom".toList,
          tryParseJson := fun _ => none }
        "why is this failing".toList).llmBackend = "deterministic-fallback".toList) ∧
    cloudFailMsg 1 "boom".toList ∈
      (dispatch
        { cloudEnabled := true, cloudMaxRetries := 1,
          localGen := fun _ => "local answer".toList,
          cloudGen := fun _ => .error "boom".toList,
          tryParseJson := fun _ => none }
        "why is this failing".toList).warnings ∧
    cloudFailMsg 2 "boom".toList ∈
      (dispatch
        { cloudEnabled := true, cloudMaxRetries := 1,
          localGen := fun _ => "local answer".toList,
          cloudGen := fun _ => .error "boom".toList,
          tryParseJson := fun _ => none }
        "why is this failing".toList).warnings :=
  cloud_failing_retries_exhausted
    { cloudEnabled := true, cloudMaxRetries := 1,
      localGen := fun _ => "local answer".toList,
      cloudGen := fun _ => .error "boom".toList,
      tryParseJson := fun _ => none }
    "why is this failing".toList "boom".toList "boom".toList
    rfl rfl rfl rfl (by decide)

/-! ## Claim C5: structured local responses never escalate -/

/-- Claim C5: when the local model's response parses as structured JSON
with a non-empty `reply` and the transcript is not classified as requiring
deep reasoning, the result backend is `"local"` with
`used_cloud_fallback = false` and `cloud_attempts = 0` — no cloud call
occurs even when cloud is enabled. -/
theorem local_structured_reply_no_cloud (D : Dispatcher) (transcript : PyStr)
    (parsed : JsonPayload)
    (hclean : pyStrip transcript ≠ [])
    (hdeep : (classify (pyStrip transcript)).requiresDeepReasoning = false)
    (hraw : pyStrip (D.localGen (pyStrip transcript)) ≠ [])
    (hparse : D.tryParseJson (pyStrip (D.localGen (pyStrip transcript))) = some parsed)
    (hreply : pyStrip parsed.reply ≠ []) :
    (dispatch D transcript).llmBackend = "local".toList ∧
    (dispatch D transcript).usedCloudFallback = false ∧
    (dispatch D transcript).cloudAttempts = 0 := by
  have hlp : parsePayload D (D.localGen (pyStrip transcript)) (pyStrip transcript)
      (classify (pyStrip transcript)) =
      ⟨pyStrip parsed.reply,
       parseActions parsed.actions (pyStrip transcript) (classify (pyStrip transcript)),
       true⟩ := by
    rw [parsePayload]
    dsimp only
    rw [if_neg hraw, hparse]
    dsimp only
    rw [if_neg hreply, if_neg hreply]
  have hdisp : dispatch D transcript =
      dispatchTail (pyStrip transcript) (classify (pyStrip transcript))
        ⟨pyStrip parsed.reply,
         parseActions parsed.actions (pyStrip transcript) (classify (pyStrip transcript)),
         true⟩ false none 0 [] := by
    rw [dispatch]
    rw [if_neg hclean]
    dsimp only
    rw [hlp, hdeep]
    simp
  rw [hdisp]
  simp [dispatchTail, hreply]

/-- Witness for C5: a concrete dispatcher whose local model returns a
payload that parses to a structured reply, with cloud enabled. -/
theorem local_structured_reply_no_cloud_witness :
    (dispatch
      { cloudEnabled := true, cloudMaxRetries := 2,
        localGen := fun _ => "raw".toList,
        cloudGen := fun _ => .ok "cloud".toList,
        tryParseJson := fun _ => some { reply := "hello from local".toList } }
      "hello there".toList).llmBackend = "local".toList ∧
    (dispatch
      { cloudEnabled := true, cloudMaxRetries := 2,
        localGen := fun _ => "raw".toList,
        cloudGen := fun _ => .ok "cloud".toList,
        tryParseJson := fun _ => some { reply := "hello from local".toList } }
      "hello there".toList).usedCloudFallback = false ∧
    (dispatch
      { cloudEnabled := true, cloudMaxRetries := 2,
        localGen := fun _ => "raw".toList,
        cloudGen := fun _ => .ok "cloud".toList,
        tryParseJson := fun _ => some { reply := "hello from local".toList } }
      "hello there".toList).cloudAttempts = 0 :=
  local_structured_reply_no_cloud
    { cloudEnabled := true, cloudMaxRetries := 2,
      localGen := fun _ => "raw".toList,
      cloudGen := fun _ => .ok "cloud".toList,
      tryParseJson := fun _ => some { reply := "hello from local".toList } }
    "hello there".toList { reply := "hello from local".toList }
    (by decide) (by decide) (by decide) rfl (by decide)

end Friday
